import Mathlib

/-!
Shallow embedding of the consultation-session engine of the
MrChizim/SiriusJobsBackEnd repository, together with proofs settling the
frozen claims about its specification.

Conventions of the embedding:
* instants and durations are in milliseconds, modelled as `Nat`
  (`Date.now()` / `new Date()` inside one operation are a single instant
  `now` passed as a parameter);
* mongoose documents become Lean structures, document collections become
  `List`s, and `findById` / `findOne` become `List.find?`;
* a method that `throw`s becomes `Except String _`;
* the socket layer is modelled by explicit room-membership lists and an
  ordered list of emitted effects.

Sources embedded (file and line references are to the repository):
* `src/backend/src/models/ConsultationSession.model` (flexible-duration
  schema): status enums, session fields, `isExpired`, `isActive`,
  `getRemainingTime`, `startSession`, `extendSession`,
  `calculateExtensionCost`, `expireOldSessions`;
* `src/backend/src/controllers/upload.controller.ts` (consultation block):
  `initializeConsultationPayment`, `initializeSessionExtension`,
  `verifyConsultationPayment`, `getSessionStatus`;
* websocket service (`initializeWebSocket`): `join:consultation`,
  `message:send`;
* server bootstrap socket handler: `consultation:message`;
* `src/backend/src/utils/consultationUtils.ts`: token validity windows;
* professionals controller: `submitReview`.
-/

namespace SiriusConsult

/-- One hour in milliseconds (the `3600000` literal used throughout the code). -/
def hourMs : Nat := 3600000

/-- `status` enum of the flexible-duration consultation-session schema:
`['pending', 'active', 'expired', 'completed', 'cancelled']`. -/
inductive SessionStatus
  | pending
  | active
  | expired
  | completed
  | cancelled
deriving DecidableEq, Repr

/-- `paymentStatus` enum: `['pending', 'completed', 'failed', 'refunded']`. -/
inductive PaymentStatus
  | pending
  | completed
  | failed
  | refunded
deriving DecidableEq, Repr

/-- One element of the `extensions` array of the session schema. -/
structure ExtensionRecord where
  extendedAt : Nat
  additionalHours : Nat
  additionalAmount : Nat
  paymentReference : String
  newExpiresAt : Nat
deriving DecidableEq, Repr

/-- The flexible-duration `ConsultationSession` document
(schema defined in the model file that also holds `Withdrawal`).
`id` stands for the mongo `_id`. Optional `Date` fields are `Option Nat`. -/
structure Session where
  id : String
  professionalId : String
  clientId : String
  clientUsername : String
  paymentStatus : PaymentStatus
  paymentAmount : Nat
  paymentReference : String
  paidAt : Option Nat
  status : SessionStatus
  selectedDuration : Nat
  currentDuration : Nat
  durationHours : Nat
  pricePerHour : Nat
  minimumDuration : Nat
  startedAt : Option Nat
  endsAt : Option Nat
  expiresAt : Option Nat
  isExtended : Bool
  extensionCount : Nat
  extensions : List ExtensionRecord
  lastMessageAt : Option Nat
  hasUnreadMessages : Bool
  messageCount : Nat
  sessionToken : String
deriving DecidableEq, Repr

/-- `isExpired()`: `if (!this.expiresAt) return false; return new Date() > this.expiresAt;`. -/
def Session.isExpired (s : Session) (now : Nat) : Bool :=
  match s.expiresAt with
  | none => false
  | some e => decide (now > e)

/-- `isActive()`: `this.status === 'active' && this.paymentStatus === 'completed' && !this.isExpired()`. -/
def Session.isActive (s : Session) (now : Nat) : Bool :=
  decide (s.status = SessionStatus.active) &&
  decide (s.paymentStatus = PaymentStatus.completed) &&
  !(s.isExpired now)

/-- `getRemainingTime()`: `Math.max(0, this.expiresAt.getTime() - Date.now())`,
`0` when `expiresAt` is unset. On `Nat`, truncated subtraction is exactly
`max 0` of the integer difference. -/
def Session.getRemainingTime (s : Session) (now : Nat) : Nat :=
  match s.expiresAt with
  | none => 0
  | some e => e - now

/-- `startSession()`: throws unless `paymentStatus === 'completed'`; then sets
`status = 'active'`, `startedAt = new Date()`,
`expiresAt = new Date(Date.now() + this.currentDuration)`, `endsAt = this.expiresAt`. -/
def Session.startSession (s : Session) (now : Nat) : Except String Session :=
  if s.paymentStatus ≠ PaymentStatus.completed then
    Except.error "Payment must be completed before starting session"
  else
    Except.ok { s with
      status := SessionStatus.active
      startedAt := some now
      expiresAt := some (now + s.currentDuration)
      endsAt := some (now + s.currentDuration) }

/-- `extendSession(additionalHours, paymentReference)`: throws unless
`status === 'active'`; throws if `additionalHours < 1`; otherwise appends an
extension record and advances `expiresAt`, `endsAt`, `currentDuration`,
`paymentAmount`, `extensionCount`, `isExtended`. The base of the new expiry is
`this.expiresAt?.getTime() || Date.now()` (JS falsy fallback, hence the
`e = 0` case). There is no duplicate-reference check and no expiry check. -/
def Session.extendSession (s : Session) (additionalHours : Nat)
    (paymentReference : String) (now : Nat) : Except String Session :=
  if s.status ≠ SessionStatus.active then
    Except.error "Only active sessions can be extended"
  else if additionalHours < 1 then
    Except.error "Extension must be at least 1 hour"
  else
    let additionalMs := additionalHours * hourMs
    let additionalAmount := additionalHours * s.pricePerHour
    let base :=
      match s.expiresAt with
      | some e => if e = 0 then now else e
      | none => now
    let newExpiresAt := base + additionalMs
    Except.ok { s with
      extensions := s.extensions ++
        [⟨now, additionalHours, additionalAmount, paymentReference, newExpiresAt⟩]
      isExtended := true
      extensionCount := s.extensionCount + 1
      currentDuration := s.currentDuration + additionalMs
      expiresAt := some newExpiresAt
      endsAt := some newExpiresAt
      paymentAmount := s.paymentAmount + additionalAmount }

/-- `calculateExtensionCost(additionalHours)`: `additionalHours * this.pricePerHour`. -/
def Session.calculateExtensionCost (s : Session) (additionalHours : Nat) : Nat :=
  additionalHours * s.pricePerHour

/-- Static `expireOldSessions()`: `updateMany({status: 'active', expiresAt: {$lt: now}}, {$set: {status: 'expired'}})`. -/
def expireOldSessions (store : List Session) (now : Nat) : List Session :=
  store.map fun s =>
    if decide (s.status = SessionStatus.active) &&
        (match s.expiresAt with | some e => decide (e < now) | none => false) then
      { s with status := SessionStatus.expired }
    else s

/-! ### Consultation controller (payment + status endpoints) -/

/-- `DEFAULT_PRICE_PER_HOUR = 5000` (kobo). -/
def DEFAULT_PRICE_PER_HOUR : Nat := 5000

/-- `MINIMUM_HOURS = 1`. -/
def MINIMUM_HOURS : Nat := 1

/-- `MAXIMUM_HOURS = 8`. -/
def MAXIMUM_HOURS : Nat := 8

/-- The session document constructed and saved by
`initializeConsultationPayment` after its duration validation: fails when
`durationHours < MINIMUM_HOURS` or (`MAXIMUM_HOURS` being truthy)
`durationHours > MAXIMUM_HOURS`; otherwise builds a `pending` session with
`selectedDuration = currentDuration = durationHours * 3600000`,
`paymentAmount = pricePerHour * durationHours`, no `startedAt`/`expiresAt`,
and the freshly signed `sessionToken`. -/
def createConsultationSession (id professionalId clientId clientUsername : String)
    (durationHours : Nat) (reference sessionToken : String) :
    Except String Session :=
  if durationHours < MINIMUM_HOURS then
    Except.error "Minimum consultation duration is 1 hour"
  else if durationHours > MAXIMUM_HOURS then
    Except.error "Maximum consultation duration is 8 hours"
  else
    Except.ok {
      id := id
      professionalId := professionalId
      clientId := clientId
      clientUsername := clientUsername
      paymentStatus := PaymentStatus.pending
      paymentAmount := DEFAULT_PRICE_PER_HOUR * durationHours
      paymentReference := reference
      paidAt := none
      status := SessionStatus.pending
      selectedDuration := durationHours * hourMs
      currentDuration := durationHours * hourMs
      durationHours := durationHours
      pricePerHour := DEFAULT_PRICE_PER_HOUR
      minimumDuration := hourMs
      startedAt := none
      endsAt := none
      expiresAt := none
      isExtended := false
      extensionCount := 0
      extensions := []
      lastMessageAt := none
      hasUnreadMessages := false
      messageCount := 0
      sessionToken := sessionToken }

/-- The mongo unique index on `paymentReference` (and on `sessionToken`):
inserting a new session whose `paymentReference` or `sessionToken` collides
with a stored session is rejected with a duplicate-key error. Note the index
covers only the top-level `paymentReference` field, not the references inside
the `extensions` arrays. -/
def insertSession (store : List Session) (s : Session) :
    Except String (List Session) :=
  if store.any fun t => t.paymentReference = s.paymentReference then
    Except.error "E11000 duplicate key error: paymentReference"
  else if store.any fun t => t.sessionToken = s.sessionToken then
    Except.error "E11000 duplicate key error: sessionToken"
  else
    Except.ok (store ++ [s])

/-- `Model.findByIdAndUpdate`-style in-place replacement of the session with
the same `_id` (the effect of `session.save()` on a fetched document). -/
def saveSession (store : List Session) (s : Session) : List Session :=
  store.map fun t => if t.id = s.id then s else t

/-- `initializeSessionExtension` up to the point it initializes the Paystack
charge: validates `additionalHours` (JS falsy test, then `< 1`), requires the
session to exist (given here), requires `status === 'active'`, and rejects an
expired session (`session.isExpired()`), before computing the extension cost. -/
def initializeSessionExtension (s : Session) (additionalHours : Nat)
    (now : Nat) : Except String Nat :=
  if additionalHours = 0 then
    Except.error "Session ID and additional hours are required"
  else if additionalHours < 1 then
    Except.error "Extension must be at least 1 hour"
  else if s.status ≠ SessionStatus.active then
    Except.error "Only active sessions can be extended"
  else if s.isExpired now then
    Except.error "Cannot extend expired session. Please start a new consultation."
  else
    Except.ok (s.calculateExtensionCost additionalHours)

/-- JS `reference.startsWith(pre)` (structurally recursive so that closed
instances reduce inside the kernel). -/
def strStartsWith (s pre : String) : Bool :=
  pre.data.isPrefixOf s.data

/-- Helper of `splitChar`: JS `String.prototype.split` on one separator
character, over the character list. -/
def splitCharAux (sep : Char) : List Char → List Char → List (List Char)
  | [], acc => [acc.reverse]
  | c :: rest, acc =>
    if c = sep then acc.reverse :: splitCharAux sep rest []
    else splitCharAux sep rest (c :: acc)

/-- JS `s.split(sep)` for a one-character separator. -/
def splitChar (s : String) (sep : Char) : List String :=
  (splitCharAux sep s.data []).map String.mk

/-- The response shape of `verifyConsultationPayment`. -/
inductive VerifyResponse
  | notFound
  | verificationFailed
  | extended (sessionId : String) (expiresAt : Option Nat) (extensionCount : Nat)
  | alreadyVerified (sessionId : String) (status : SessionStatus)
  | activated (sessionId : String) (startedAt expiresAt : Option Nat)
  | serverError (message : String)
deriving DecidableEq, Repr

/-- `verifyConsultationPayment(reference)`, given the outcome of the Paystack
verification call (`paystackSuccess`, with `metadata.additionalHours` and
`paid_at` for the successful case). An `EXTEND_`-prefixed reference selects the
extension branch, locating the session by `reference.split('_')[1]`; otherwise
the session is located by its original `paymentReference`. The extension
branch calls `extendSession(additionalHours, reference)` and saves — with no
check that the reference was already applied. The initial branch returns
early when `paymentStatus` is already `'completed'`; otherwise it marks the
payment completed, calls `startSession()`, saves, and increments the client
counters (`totalSessions`, `activeSessions`), returned here as the last
component. -/
def verifyConsultationPayment (store : List Session) (reference : String)
    (paystackSuccess : Bool) (metaAdditionalHours : Option Nat) (paidAt : Nat)
    (now : Nat) : VerifyResponse × List Session × Int :=
  let isExtension := strStartsWith reference "EXTEND_"
  let found :=
    if isExtension then
      let sessionId := (splitChar reference '_').getD 1 ""
      store.find? fun s => s.id = sessionId
    else
      store.find? fun s => s.paymentReference = reference
  match found with
  | none => (VerifyResponse.notFound, store, 0)
  | some session =>
    if !paystackSuccess then
      (VerifyResponse.verificationFailed, store, 0)
    else if isExtension then
      let additionalHours :=
        match metaAdditionalHours with
        | some n => if n = 0 then 1 else n
        | none => 1
      match session.extendSession additionalHours reference now with
      | Except.error e => (VerifyResponse.serverError e, store, 0)
      | Except.ok updated =>
        (VerifyResponse.extended updated.id updated.expiresAt updated.extensionCount,
          saveSession store updated, 0)
    else
      if session.paymentStatus = PaymentStatus.completed then
        (VerifyResponse.alreadyVerified session.id session.status, store, 0)
      else
        let paid := { session with
          paymentStatus := PaymentStatus.completed
          paidAt := some paidAt }
        match paid.startSession now with
        | Except.error e => (VerifyResponse.serverError e, store, 0)
        | Except.ok started =>
          (VerifyResponse.activated started.id started.startedAt started.expiresAt,
            saveSession store started, 1)

/-- Response payload of `getSessionStatus` (the fields the claims are about). -/
structure StatusData where
  sessionId : String
  status : SessionStatus
  paymentStatus : PaymentStatus
  remainingTime : Nat
  isActive : Bool
  extensionCount : Nat
deriving DecidableEq, Repr

/-- Result of `getSessionStatus`. -/
inductive StatusResponse
  | tokenRequired
  | invalidToken
  | ok (data : StatusData)
deriving DecidableEq, Repr

/-- The response body of `getSessionStatus` for a stored session `s`. -/
def statusDataOf (s : Session) (now : Nat) : StatusData :=
  { sessionId := s.id
    status := s.status
    paymentStatus := s.paymentStatus
    remainingTime := s.getRemainingTime now
    isActive := s.isActive now
    extensionCount := s.extensionCount }

/-- `getSessionStatus(sessionId)` on a fetched session: requires a bearer
token, rejects a token differing from `session.sessionToken`; then, when
`session.isExpired() && session.status === 'active'`, writes
`status = 'expired'` back and decrements the client document counter
`activeSessions` (`$inc: {activeSessions: -1}`, the `Int` component); finally
answers with the (possibly updated) session fields. Returns the response, the
stored session after the call, and the counter increment. -/
def getSessionStatus (s : Session) (token : Option String) (now : Nat) :
    StatusResponse × Session × Int :=
  match token with
  | none => (StatusResponse.tokenRequired, s, 0)
  | some tok =>
    if s.sessionToken ≠ tok then
      (StatusResponse.invalidToken, s, 0)
    else if s.isExpired now && decide (s.status = SessionStatus.active) then
      (StatusResponse.ok (statusDataOf { s with status := SessionStatus.expired } now),
        { s with status := SessionStatus.expired }, -1)
    else
      (StatusResponse.ok (statusDataOf s now), s, 0)

/-! ### WebSocket layer -/

/-- The session mutation of the `join:consultation` handler of the websocket
service: rejects when the session clock ran out — the inline check
`session.expiresAt && new Date() > session.expiresAt`, which is exactly the
body of `isExpired` — then — only when
`status === 'pending'` — sets `status = 'active'`, `startedAt = new Date()`,
`expiresAt = new Date(Date.now() + session.currentDuration)` and saves.
An already-`active` session is joined unchanged. -/
def joinConsultationActivate (s : Session) (now : Nat) : Except String Session :=
  if s.isExpired now then
    Except.error "Session has expired"
  else if s.status = SessionStatus.pending then
    Except.ok { s with
      status := SessionStatus.active
      startedAt := some now
      expiresAt := some (now + s.currentDuration) }
  else
    Except.ok s

/-- The session mutation of the server-bootstrap `consultation:message`
handler when the session is still `pending`: `status = 'active'`,
`startedAt = new Date()`, `endsAt = new Date(Date.now() + 24*60*60*1000)`.
Note: it sets `endsAt` to a fixed 24 hours and never touches `expiresAt`. -/
def messageAutoActivate (s : Session) (now : Nat) : Session :=
  if s.status = SessionStatus.pending then
    { s with
      status := SessionStatus.active
      startedAt := some now
      endsAt := some (now + 24 * hourMs) }
  else s

/-- JS `content.trim()` (whitespace stripped from both ends; structurally
recursive so that closed instances reduce inside the kernel). -/
def jsTrim (s : String) : String :=
  String.mk (((s.data.dropWhile Char.isWhitespace).reverse.dropWhile
    Char.isWhitespace).reverse)

/-- A persisted chat message (the `Message` document saved by the
`consultation:message` handler). -/
structure StoredMessage where
  sessionId : String
  senderId : String
  senderType : String
  content : String
  isRead : Bool
deriving DecidableEq, Repr

/-- `socket.data` of a connected socket in the bootstrap handler: a client
carries the `sessionId`/`clientAnonymousId` decoded from its session token, a
professional carries its `professionalId`. -/
inductive SocketData
  | client (sessionId clientAnonymousId : String)
  | professional (professionalId : String)
  | anonymous
deriving DecidableEq, Repr

/-- An observable effect of a socket handler, in emission order. -/
inductive Effect
  | errorToSender (message : String)
  | persistMessage (m : StoredMessage)
  | saveSession (s : Session)
  | emitToRoom (recipients : List String) (m : StoredMessage)
deriving DecidableEq, Repr

/-- The `consultation:message` handler of the server bootstrap, as the ordered
list of its effects. `roomMembers` is the set of socket ids currently joined
to `consultation:<sessionId>` (the target of `io.to(...)`, which includes the
sender whenever the sender joined the room). Steps, in source order: content
validation (`trim` empty, or length over 2000), session lookup, status gate
(`active` or `pending`), expiry gate (`session.endsAt && now > endsAt`),
authorization per `socket.data`, `message.save()`, session update
(`lastMessageAt`, unread flag on client messages, pending auto-activation),
`session.save()`, then `io.to(room).emit` of the message. -/
def consultationMessageHandler (sessions : List Session)
    (roomMembers : List String) (sock : SocketData)
    (sessionId content : String) (now : Nat) : List Effect :=
  if (jsTrim content).length = 0 || content.length > 2000 then
    [Effect.errorToSender "Invalid message content"]
  else
    match sessions.find? fun s => s.id = sessionId with
    | none => [Effect.errorToSender "Session not found"]
    | some session =>
      if session.status ≠ SessionStatus.active ∧
          session.status ≠ SessionStatus.pending then
        [Effect.errorToSender "Session is not active"]
      else if (match session.endsAt with
          | some e => decide (now > e) | none => false) then
        [Effect.errorToSender "Session has expired"]
      else
        let sender? : Option (String × String) :=
          match sock with
          | SocketData.client sid anonId =>
            if sid = sessionId then some (anonId, "client") else none
          | SocketData.professional pid =>
            if session.professionalId = pid then some ("professional", "professional")
            else none
          | SocketData.anonymous => none
        match sender? with
        | none => [Effect.errorToSender "Unauthorized"]
        | some (senderId, senderType) =>
          let m : StoredMessage := {
            sessionId := sessionId
            senderId := senderId
            senderType := senderType
            content := jsTrim content
            isRead := false }
          let withMeta := { session with
            lastMessageAt := some now
            hasUnreadMessages :=
              if senderType = "client" then true else session.hasUnreadMessages }
          let updated := messageAutoActivate withMeta now
          [Effect.persistMessage m, Effect.saveSession updated,
            Effect.emitToRoom roomMembers m]

/-! ### Review submission -/

/-- A `Review` document created by `submitReview`. -/
structure Review where
  professionalId : String
  sessionId : String
  clientName : String
  rating : Nat
  comment : Option String
deriving DecidableEq, Repr

/-- `submitReview` (client endpoint, no auth): zod validation
(`clientName` at least 2 characters, integer `rating` in `1..5`, optional
`comment` of at most 1000 characters), session lookup by
`{_id, sessionToken, professionalId}`, the gate `status === 'expired'`
(anything else answers with the review-only-after-end error), the
one-review-per-session check against the `Review` collection, then creation
of the review. Returns the created review and the updated collection. -/
def commentTooLong : Option String → Bool
  | some c => decide (c.length > 1000)
  | none => false

def submitReview (sessions : List Session) (reviews : List Review)
    (professionalId sessionId sessionToken clientName : String)
    (rating : Nat) (comment : Option String) :
    Except String (Review × List Review) :=
  if clientName.length < 2 || rating < 1 || rating > 5 || commentTooLong comment then
    Except.error "Validation failed"
  else
    match sessions.find? fun s =>
        s.id = sessionId ∧ s.sessionToken = sessionToken ∧
        s.professionalId = professionalId with
    | none => Except.error "Invalid session"
    | some session =>
      if session.status ≠ SessionStatus.expired then
        Except.error "You can only review after the session has ended"
      else if reviews.any fun rv => rv.sessionId = sessionId then
        Except.error "You have already reviewed this session"
      else
        let review : Review := {
          professionalId := professionalId
          sessionId := sessionId
          clientName := clientName
          rating := rating
          comment := comment }
        Except.ok (review, reviews ++ [review])

/-! ### Client token validity windows -/

/-- The claims carried by the JWT of `generateClientSessionToken`
(`consultationUtils.ts`), whose expiry is `expiresIn: '25h'` — the comment in
the source reads: session is 24 hours + 1 hour buffer. `exp` is the issue
instant plus that window. -/
structure ClientTokenClaims where
  sessionId : String
  clientAnonymousId : String
  type : String
  exp : Nat
deriving DecidableEq, Repr

/-- `generateClientSessionToken(sessionId, clientAnonymousId)` signed at
instant `now`. -/
def generateClientSessionToken (sessionId clientAnonymousId : String)
    (now : Nat) : ClientTokenClaims :=
  { sessionId := sessionId
    clientAnonymousId := clientAnonymousId
    type := "client_session"
    exp := now + 25 * hourMs }

/-- The claims of the session token signed inside
`initializeConsultationPayment` (flexible-duration booking), whose expiry is
`expiresIn: '7d'`. -/
structure BookingTokenClaims where
  clientId : String
  username : String
  professionalId : String
  type : String
  exp : Nat
deriving DecidableEq, Repr

/-- The `jwt.sign` call of `initializeConsultationPayment` at instant `now`. -/
def bookingSessionToken (clientId username professionalId : String)
    (now : Nat) : BookingTokenClaims :=
  { clientId := clientId
    username := username
    professionalId := professionalId
    type := "consultation_session"
    exp := now + 7 * 24 * hourMs }

/-! ### Concrete fixtures used by the claim theorems -/

/-- A 2-hour session that has been paid and activated at instant 0:
`status = active`, `paymentStatus = completed`,
`startedAt = 0`, `expiresAt = endsAt = 7200000`. -/
def sampleActive : Session := {
  id := "S1"
  professionalId := "P1"
  clientId := "CL1"
  clientUsername := "anonuser"
  paymentStatus := PaymentStatus.completed
  paymentAmount := 10000
  paymentReference := "CONSULT_r0"
  paidAt := some 0
  status := SessionStatus.active
  selectedDuration := 7200000
  currentDuration := 7200000
  durationHours := 2
  pricePerHour := 5000
  minimumDuration := 3600000
  startedAt := some 0
  endsAt := some 7200000
  expiresAt := some 7200000
  isExtended := false
  extensionCount := 0
  extensions := []
  lastMessageAt := none
  hasUnreadMessages := false
  messageCount := 0
  sessionToken := "tok1" }

/-- Boolean success test for `Except`. -/
def exceptOk {ε α : Type} : Except ε α → Bool
  | Except.ok _ => true
  | Except.error _ => false

/-- The extension record applied to `sampleActive` by the first delivery of
the extension reference `EXTEND_S1_r1` (1 hour at instant 3600000). -/
def c1ext : ExtensionRecord := {
  extendedAt := 3600000
  additionalHours := 1
  additionalAmount := 5000
  paymentReference := "EXTEND_S1_r1"
  newExpiresAt := 10800000 }

/-- `sampleActive` after the first delivery of `EXTEND_S1_r1` was applied:
one extension record, expiry pushed to 10800000. -/
def c1session : Session := { sampleActive with
  paymentAmount := 15000
  currentDuration := 10800000
  startedAt := some 0
  endsAt := some 10800000
  expiresAt := some 10800000
  isExtended := true
  extensionCount := 1
  extensions := [c1ext] }

/-- `c1session` after the verification of `EXTEND_S1_r1` is replayed at
instant 7200000: the same reference appears in a second extension record and
the expiry advances one more hour. -/
def c1doubled : Session := { c1session with
  paymentAmount := 20000
  currentDuration := 14400000
  endsAt := some 14400000
  expiresAt := some 14400000
  extensionCount := 2
  extensions := [c1ext,
    { extendedAt := 7200000
      additionalHours := 1
      additionalAmount := 5000
      paymentReference := "EXTEND_S1_r1"
      newExpiresAt := 14400000 }] }

/-- C1: webhook redelivery of an already-applied extension reference is not
rejected as a duplicate: `verifyConsultationPayment` replayed with
`EXTEND_S1_r1` — a reference that `c1session.extensions` already holds —
answers success, appends a second extension record carrying the very same
reference, and advances `expiresAt` by another hour, so the session is
double-extended. (The unique index guards only the top-level
`paymentReference`, and the extension branch of the verify endpoint has no
applied-reference check at all.) -/
theorem C1_replay_double_extends :
    (c1session.extensions.countP fun x => x.paymentReference = "EXTEND_S1_r1") = 1 ∧
    verifyConsultationPayment [c1session] "EXTEND_S1_r1" true (some 1) 0 7200000 =
      (VerifyResponse.extended "S1" (some 14400000) 2, [c1doubled], 0) ∧
    (c1doubled.extensions.countP fun x => x.paymentReference = "EXTEND_S1_r1") = 2 := by
  refine ⟨by decide, ?_, by decide⟩
  rfl

/-- A session that is still marked `active` but whose expiry instant 1000 has
already passed at the instants the C2 theorems use. -/
def c2sess : Session := { sampleActive with
  currentDuration := 1000
  selectedDuration := 1000
  endsAt := some 1000
  expiresAt := some 1000 }

/-- C2 counterexample: at instant 2000 the clock of `c2sess` has run out
(`now > expiresAt`), yet `extendSession` — the operation that applies a
verified extension — succeeds and pushes `expiresAt` forward, so an extension
of a session whose clock ran out is applied after all. The only expiry check
sits in `initializeSessionExtension`, before the payment is made. -/
theorem C2_counterexample :
    c2sess.status = SessionStatus.active ∧
    c2sess.expiresAt = some 1000 ∧ (1000:Nat) < 2000 ∧
    Session.extendSession c2sess 1 "EXTEND_S1_late" 2000 =
      Except.ok { c2sess with
        paymentAmount := 15000
        currentDuration := 3601000
        endsAt := some 3601000
        expiresAt := some 3601000
        isExtended := true
        extensionCount := 1
        extensions := [{
          extendedAt := 2000
          additionalHours := 1
          additionalAmount := 5000
          paymentReference := "EXTEND_S1_late"
          newExpiresAt := 3601000 }] } := by
  refine ⟨rfl, rfl, by decide, ?_⟩
  rfl

/-- C2 amended: the `now > expiresAt` rejection exists only when the
extension payment is initialized (`initializeSessionExtension`, which rejects
an expired session before any charge); applying a verified extension checks
only the status: once the sweep (or a status query) has flipped the session to
`expired` the application fails and leaves it unchanged, but a session past
its expiry instant whose stored status is still `active` is extended anyway. -/
theorem C2_expiry_checked_at_initialization_only (s : Session) (h now : Nat)
    (r : String) :
    (1 ≤ h → s.status = SessionStatus.active → s.isExpired now = true →
      initializeSessionExtension s h now =
        Except.error "Cannot extend expired session. Please start a new consultation.") ∧
    (s.status ≠ SessionStatus.active →
      Session.extendSession s h r now =
        Except.error "Only active sessions can be extended") ∧
    (s.status = SessionStatus.active → 1 ≤ h →
      exceptOk (Session.extendSession s h r now) = true) := by
  refine ⟨fun hh hst hexp => ?_, fun hst => ?_, fun hst hh => ?_⟩
  · unfold initializeSessionExtension
    rw [if_neg (by omega), if_neg (by omega), if_neg (by simp [hst]), if_pos hexp]
  · unfold Session.extendSession
    rw [if_pos hst]
  · unfold Session.extendSession exceptOk
    rw [if_neg (by simp [hst]), if_neg (by omega)]

/-- C2 witness: the amended theorem applied at `c2sess` and at its
sweep-flipped variant. -/
theorem C2_expiry_checked_at_initialization_only_witness :
    initializeSessionExtension c2sess 1 2000 =
      Except.error "Cannot extend expired session. Please start a new consultation." ∧
    Session.extendSession { c2sess with status := SessionStatus.expired } 1 "r" 2000 =
      Except.error "Only active sessions can be extended" ∧
    exceptOk (Session.extendSession c2sess 1 "r" 2000) = true := by
  refine ⟨(C2_expiry_checked_at_initialization_only c2sess 1 2000 "r").1
      (by decide) rfl (by decide),
    (C2_expiry_checked_at_initialization_only
      { c2sess with status := SessionStatus.expired } 1 2000 "r").2.1 (by decide),
    (C2_expiry_checked_at_initialization_only c2sess 1 2000 "r").2.2 rfl (by decide)⟩

/-- C4: a successful `extendSession(additionalHours)` on an `active` session
that is not yet expired advances `expiresAt` by exactly
`additionalHours * 3600000` and the total paid amount (`paymentAmount`) by
exactly `additionalHours * pricePerHour`. -/
theorem C4_extend_adds_exact_time_and_amount (s : Session) (e h now : Nat)
    (r : String) (s2 : Session)
    (hst : s.status = SessionStatus.active)
    (hexp : s.expiresAt = some e)
    (hlive : s.isExpired now = false)
    (hh : 1 ≤ h)
    (hrun : s.extendSession h r now = Except.ok s2) :
    s2.expiresAt = some (e + h * hourMs) ∧
    s2.paymentAmount = s.paymentAmount + h * s.pricePerHour := by
  unfold Session.extendSession at hrun
  rw [if_neg (by simp [hst]), if_neg (by omega), hexp] at hrun
  by_cases e0 : e = 0
  · have hn : now = 0 := by
      unfold Session.isExpired at hlive
      rw [hexp] at hlive
      simp at hlive
      omega
    subst e0
    subst hn
    cases hrun
    exact ⟨by simp, by simp⟩
  · cases hrun
    exact ⟨by simp [e0], by simp⟩

/-- The result of extending `sampleActive` by 3 hours at instant 1000. -/
def c4after : Session := { sampleActive with
  paymentAmount := 25000
  currentDuration := 18000000
  endsAt := some 18000000
  expiresAt := some 18000000
  isExtended := true
  extensionCount := 1
  extensions := [{
    extendedAt := 1000
    additionalHours := 3
    additionalAmount := 15000
    paymentReference := "EXTEND_S1_w"
    newExpiresAt := 18000000 }] }

/-- C4 witness: extending `sampleActive` (expiry 7200000) by 3 hours at
instant 1000 yields expiry 7200000 + 3·3600000 and amount 10000 + 3·5000. -/
theorem C4_extend_adds_exact_time_and_amount_witness :
    sampleActive.extendSession 3 "EXTEND_S1_w" 1000 = Except.ok c4after ∧
    c4after.expiresAt = some (7200000 + 3 * hourMs) ∧
    c4after.paymentAmount = sampleActive.paymentAmount + 3 * sampleActive.pricePerHour := by
  have h := C4_extend_adds_exact_time_and_amount sampleActive 7200000 3 1000
    "EXTEND_S1_w" c4after rfl rfl (by decide) (by decide) rfl
  exact ⟨rfl, h.1, h.2⟩

/-- `sampleActive` with the payment not yet marked completed (reachable: the
websocket `join:consultation` handler activates a pending session without
touching `paymentStatus`). -/
def c6sess : Session := { sampleActive with paymentStatus := PaymentStatus.pending }

/-- C6 counterexample: `c6sess` has `status = active` and, at instant 0, is
strictly before its expiry 7200000 — yet `isActive` answers `false`, because
the method additionally requires `paymentStatus === 'completed'`. So
`IsActive` is not equivalent to `status == active AND now < expiresAt`. -/
theorem C6_counterexample :
    ¬(c6sess.isActive 0 = true ↔
      (c6sess.status = SessionStatus.active ∧ (0:Nat) < 7200000)) := by
  decide

/-- C6 amended: `isActive` returns `true` iff `status = active` AND
`paymentStatus = completed` AND the session is not expired, where expiry
means `expiresAt` is set and `now` is strictly after it (so the boundary
instant `now = expiresAt` still counts as active, and a session with no
`expiresAt` passes the expiry test). -/
theorem C6_isActive_characterization (s : Session) (now : Nat) :
    s.isActive now = true ↔
      (s.status = SessionStatus.active ∧
        s.paymentStatus = PaymentStatus.completed ∧
        ∀ e, s.expiresAt = some e → now ≤ e) := by
  unfold Session.isActive Session.isExpired
  cases hexp : s.expiresAt with
  | none => simp [hexp]
  | some e => simp [hexp, Nat.not_lt, and_assoc]

/-- C5 counterexample: calling `startSession` again on `sampleActive` — a
session already `active` with `startedAt = 0` — raises no error but is not a
no-op: it re-stamps `startedAt` to the current instant 5000 and resets
`expiresAt`/`endsAt` to 5000 + `currentDuration`. -/
theorem C5_counterexample :
    sampleActive.status = SessionStatus.active ∧
    sampleActive.startedAt = some 0 ∧
    Session.startSession sampleActive 5000 =
      Except.ok { sampleActive with
        startedAt := some 5000
        expiresAt := some 7205000
        endsAt := some 7205000 } ∧
    some (5000:Nat) ≠ some (0:Nat) := by
  exact ⟨rfl, rfl, rfl, by decide⟩

/-- C5 amended: what is idempotent is each activation call site, through its
guard — the verify endpoint answers `alreadyVerified` and leaves the store
untouched when `paymentStatus` is already `completed`, the websocket join
leaves a non-`pending` session unchanged, and the first-message
auto-activation fires only on `pending` — while the underlying
`startSession`, if reached again (it raises no error when the payment is
completed), re-stamps `startedAt`, `expiresAt` and `endsAt` to the current
instant, resetting the session clock. -/
theorem C5_activation_idempotent_only_through_guards (store : List Session)
    (reference : String) (mah : Option Nat) (paidAt now : Nat) (s : Session) :
    (strStartsWith reference "EXTEND_" = false →
      store.find? (fun t => t.paymentReference = reference) = some s →
      s.paymentStatus = PaymentStatus.completed →
      verifyConsultationPayment store reference true mah paidAt now =
        (VerifyResponse.alreadyVerified s.id s.status, store, 0)) ∧
    (s.status = SessionStatus.active → s.isExpired now = false →
      joinConsultationActivate s now = Except.ok s) ∧
    (s.status ≠ SessionStatus.pending → messageAutoActivate s now = s) ∧
    (s.status = SessionStatus.active → s.paymentStatus = PaymentStatus.completed →
      s.startSession now = Except.ok { s with
        startedAt := some now
        expiresAt := some (now + s.currentDuration)
        endsAt := some (now + s.currentDuration) }) := by
  refine ⟨fun hpre hfind hpaid => ?_, fun hst hlive => ?_, fun hst => ?_,
    fun hst hpaid => ?_⟩
  · unfold verifyConsultationPayment
    rw [hpre]
    simp only [Bool.false_eq_true, if_false, hfind]
    simp [hpaid]
  · unfold joinConsultationActivate
    rw [if_neg (by simp [hlive]), if_neg (by simp [hst])]
  · unfold messageAutoActivate
    rw [if_neg hst]
  · unfold Session.startSession
    rw [if_neg (by simp [hpaid])]
    have : { s with
        status := SessionStatus.active
        startedAt := some now
        expiresAt := some (now + s.currentDuration)
        endsAt := some (now + s.currentDuration) } = { s with
        startedAt := some now
        expiresAt := some (now + s.currentDuration)
        endsAt := some (now + s.currentDuration) } := by
      cases s
      simp_all
    rw [this]

/-- C5 witness: the guards and the re-stamp, at `sampleActive` (already
active, payment completed, originally started at 0). -/
theorem C5_activation_idempotent_only_through_guards_witness :
    verifyConsultationPayment [sampleActive] "CONSULT_r0" true none 0 5000 =
      (VerifyResponse.alreadyVerified "S1" SessionStatus.active,
        [sampleActive], 0) ∧
    joinConsultationActivate sampleActive 5000 = Except.ok sampleActive ∧
    messageAutoActivate sampleActive 5000 = sampleActive ∧
    Session.startSession sampleActive 5000 =
      Except.ok { sampleActive with
        startedAt := some 5000
        expiresAt := some 7205000
        endsAt := some 7205000 } := by
  have h := C5_activation_idempotent_only_through_guards [sampleActive]
    "CONSULT_r0" none 0 5000 sampleActive
  exact ⟨h.1 (by decide) (by decide) rfl, h.2.1 rfl (by decide),
    h.2.2.1 (by decide), (h.2.2.2 rfl rfl).trans rfl⟩

/-- C9 counterexample: the token issued by the flexible-duration booking flow
(`initializeConsultationPayment`) is signed with `expiresIn: '7d'` — a
604800000 ms window — which is not the maximum possible session duration
(`MAXIMUM_HOURS` = 8 hours) plus the one-hour buffer (32400000 ms). -/
theorem C9_counterexample :
    (bookingSessionToken "CL1" "anonuser" "P1" 0).exp = 604800000 ∧
    MAXIMUM_HOURS * hourMs + hourMs = 32400000 ∧
    (604800000 : Nat) ≠ 32400000 := by
  decide

/-- C9 amended: only the helper `generateClientSessionToken` (used by the
superseded fixed-24-hour booking flow of `payment.service.ts`) has the
duration-plus-one-hour window — 25h = 24h + 1h; the token the
flexible-duration booking flow actually issues is valid for a fixed 7 days,
unrelated to the 8-hour maximum session duration. -/
theorem C9_token_validity_windows (clientId username professionalId sessionId
    anonId : String) (now : Nat) :
    (generateClientSessionToken sessionId anonId now).exp =
      now + 24 * hourMs + hourMs ∧
    (bookingSessionToken clientId username professionalId now).exp =
      now + 7 * 24 * hourMs := by
  refine ⟨?_, rfl⟩
  show now + 25 * hourMs = now + 24 * hourMs + hourMs
  unfold hourMs
  omega

/-- The session `initializeConsultationPayment` builds for a 2-hour booking
(reference `CONSULT_r3`, token `tok3`): `pending`, `currentDuration` 7200000,
no `startedAt`/`expiresAt`. -/
def c3created : Session := {
  id := "S3"
  professionalId := "P1"
  clientId := "CL9"
  clientUsername := "anonuser"
  paymentStatus := PaymentStatus.pending
  paymentAmount := 10000
  paymentReference := "CONSULT_r3"
  paidAt := none
  status := SessionStatus.pending
  selectedDuration := 7200000
  currentDuration := 7200000
  durationHours := 2
  pricePerHour := 5000
  minimumDuration := 3600000
  startedAt := none
  endsAt := none
  expiresAt := none
  isExtended := false
  extensionCount := 0
  extensions := []
  lastMessageAt := none
  hasUnreadMessages := false
  messageCount := 0
  sessionToken := "tok3" }

/-- C3 counterexample: Create with 2 hours followed by the
`consultation:message` auto-activation (one of the activation paths) yields a
session whose `expiresAt` is still unset — and whose stamped window,
`endsAt`, is the fixed 24 hours rather than 2 hours — so
`expiresAt - startedAt = hours * 3600000` fails on this activation path. -/
theorem C3_counterexample :
    createConsultationSession "S3" "P1" "CL9" "anonuser" 2 "CONSULT_r3" "tok3" =
      Except.ok c3created ∧
    (messageAutoActivate c3created 5000).status = SessionStatus.active ∧
    (messageAutoActivate c3created 5000).startedAt = some 5000 ∧
    (messageAutoActivate c3created 5000).expiresAt = none ∧
    (messageAutoActivate c3created 5000).endsAt = some 86405000 := by
  exact ⟨rfl, rfl, rfl, rfl, rfl⟩

/-- C3 amended: on the two flexible-duration activation paths — `startSession`
after payment verification, and the websocket `join:consultation`
activation — Create with `1 ≤ hours ≤ 8` then Activate stamps
`startedAt = now` and `expiresAt = now + hours * 3600000`, so the session
window equals the booked hours exactly; the legacy `consultation:message`
auto-activation instead stamps a fixed 24-hour `endsAt` and leaves
`expiresAt` unset. -/
theorem C3_create_activate_window_exact (id p c u : String) (h : Nat)
    (ref tok : String) (pa now : Nat) (s : Session)
    (hcreate : createConsultationSession id p c u h ref tok = Except.ok s) :
    (∀ s2, ({ s with paymentStatus := PaymentStatus.completed, paidAt := some pa }).startSession now = Except.ok s2 →
      s2.startedAt = some now ∧ s2.expiresAt = some (now + h * hourMs) ∧
      (now + h * hourMs) - now = h * hourMs) ∧
    (∀ s3, joinConsultationActivate s now = Except.ok s3 →
      s3.startedAt = some now ∧ s3.expiresAt = some (now + h * hourMs)) := by
  unfold createConsultationSession at hcreate
  split at hcreate
  · exact nomatch hcreate
  · split at hcreate
    · exact nomatch hcreate
    · cases hcreate
      refine ⟨fun s2 hrun => ?_, fun s3 hrun => ?_⟩
      · unfold Session.startSession at hrun
        rw [if_neg (by simp)] at hrun
        cases hrun
        exact ⟨rfl, rfl, by omega⟩
      · unfold joinConsultationActivate at hrun
        rw [if_neg (by simp [Session.isExpired]), if_pos rfl] at hrun
        cases hrun
        exact ⟨rfl, rfl⟩

/-- `c3created` with the payment marked completed (as the verify endpoint
does just before calling `startSession`). -/
def c3paid : Session :=
  { c3created with paymentStatus := PaymentStatus.completed, paidAt := some 100 }

/-- `c3paid` activated at instant 5000. -/
def c3active : Session := { c3paid with
  status := SessionStatus.active
  startedAt := some 5000
  expiresAt := some 7205000
  endsAt := some 7205000 }

/-- C3 witness: the amended theorem at the concrete 2-hour booking, activated
at instant 5000 — the window is exactly 2·3600000. -/
theorem C3_create_activate_window_exact_witness :
    c3paid.startSession 5000 = Except.ok c3active ∧
    c3active.startedAt = some 5000 ∧
    c3active.expiresAt = some (5000 + 2 * hourMs) ∧
    joinConsultationActivate c3created 5000 =
      Except.ok { c3created with
        status := SessionStatus.active
        startedAt := some 5000
        expiresAt := some 7205000 } ∧
    (5000 + 2 * hourMs) - 5000 = 2 * hourMs := by
  have h := C3_create_activate_window_exact "S3" "P1" "CL9" "anonuser" 2
    "CONSULT_r3" "tok3" 100 5000 c3created rfl
  have h1 := h.1 c3active rfl
  have h2 := h.2 { c3created with
    status := SessionStatus.active
    startedAt := some 5000
    expiresAt := some 7205000 } rfl
  exact ⟨rfl, h1.1, h1.2.1, rfl, h1.2.2⟩

/-- C10: the status query is not read-only. With the correct client token
presented: when the fetched session has `status = active` and its expiry
instant has passed, `getSessionStatus` writes `status = 'expired'` back,
decrements the client's `activeSessions` counter by one, and answers with
the already-flipped status; for any other session it leaves the stored
session unchanged and the counter untouched. -/
theorem C10_status_query_flips_expired_active (s : Session) (now : Nat) :
    (s.status = SessionStatus.active → s.isExpired now = true →
      getSessionStatus s (some s.sessionToken) now =
        (StatusResponse.ok
          (statusDataOf { s with status := SessionStatus.expired } now),
        { s with status := SessionStatus.expired }, -1) ∧
      (statusDataOf { s with status := SessionStatus.expired } now).status =
        SessionStatus.expired) ∧
    (¬(s.status = SessionStatus.active ∧ s.isExpired now = true) →
      (getSessionStatus s (some s.sessionToken) now).2.1 = s ∧
      (getSessionStatus s (some s.sessionToken) now).2.2 = 0) := by
  constructor
  · intro hst hexp
    have hcond : (s.isExpired now && decide (s.status = SessionStatus.active)) = true := by
      rw [hexp, hst]
      simp
    unfold getSessionStatus
    dsimp only
    rw [if_neg (show ¬(s.sessionToken ≠ s.sessionToken) by simp), if_pos hcond]
    exact ⟨rfl, rfl⟩
  · intro hne
    have hcond : (s.isExpired now && decide (s.status = SessionStatus.active)) = false := by
      by_cases hst : s.status = SessionStatus.active
      · have hx : s.isExpired now = false := by
          cases hx : s.isExpired now
          · rfl
          · exact absurd ⟨hst, hx⟩ hne
        rw [hx]
        simp
      · simp [hst]
    unfold getSessionStatus
    dsimp only
    rw [if_neg (show ¬(s.sessionToken ≠ s.sessionToken) by simp),
      if_neg (show ¬((s.isExpired now && decide (s.status = SessionStatus.active)) = true) by simp [hcond])]
    exact ⟨rfl, rfl⟩

/-- C10 witness: at instant 2000 the active session `c2sess` (expiry 1000,
token `tok1`) is flipped to `expired` with counter change −1; the
still-live `sampleActive` at instant 1000 is left unchanged with counter
change 0. -/
theorem C10_status_query_flips_expired_active_witness :
    getSessionStatus c2sess (some c2sess.sessionToken) 2000 =
      (StatusResponse.ok {
        sessionId := "S1"
        status := SessionStatus.expired
        paymentStatus := PaymentStatus.completed
        remainingTime := 0
        isActive := false
        extensionCount := 0 },
      { c2sess with status := SessionStatus.expired }, -1) ∧
    (getSessionStatus sampleActive (some sampleActive.sessionToken) 1000).2.1 =
      sampleActive ∧
    (getSessionStatus sampleActive (some sampleActive.sessionToken) 1000).2.2 = 0 := by
  have h1 := (C10_status_query_flips_expired_active c2sess 2000).1 rfl (by decide)
  have h2 := (C10_status_query_flips_expired_active sampleActive 1000).2
    (by decide)
  exact ⟨h1.1.trans rfl, h2.1, h2.2⟩

/-- Inversion of a successful `submitReview`: the validation guard was false,
a session matching `{_id, sessionToken, professionalId}` was found with
status `expired`, no review for the session existed, and the result appends
the created review. -/
lemma submitReview_ok_elim (sessions : List Session) (reviews : List Review)
    (pid sid tok name : String) (rating : Nat) (comment : Option String)
    (r : Review) (reviews2 : List Review)
    (h : submitReview sessions reviews pid sid tok name rating comment =
      Except.ok (r, reviews2)) :
    (name.length < 2 || rating < 1 || rating > 5 || commentTooLong comment) = false ∧
    ∃ s, sessions.find? (fun s => s.id = sid ∧ s.sessionToken = tok ∧
        s.professionalId = pid) = some s ∧
      s.status = SessionStatus.expired ∧
      (reviews.any fun rv => rv.sessionId = sid) = false ∧
      r = { professionalId := pid, sessionId := sid, clientName := name, rating := rating, comment := comment } ∧
      reviews2 = reviews ++ [r] := by
  unfold submitReview at h
  split at h
  · exact nomatch h
  · rename_i hg
    rw [Bool.not_eq_true] at hg
    refine ⟨hg, ?_⟩
    cases hfind : List.find?
        (fun s => decide (s.id = sid ∧ s.sessionToken = tok ∧ s.professionalId = pid))
        sessions with
    | none =>
      rw [hfind] at h
      exact nomatch h
    | some s =>
      rw [hfind] at h
      dsimp only at h
      split at h
      · exact nomatch h
      · rename_i hstatus
        split at h
        · exact nomatch h
        · rename_i hany
          rw [Bool.not_eq_true] at hany
          injection h with h2
          injection h2 with hr hl
          exact ⟨s, rfl, not_ne_iff.mp hstatus, hany, hr.symm,
            by rw [← hl, ← hr]⟩

/-- C7 amended: a review submission succeeds only when the presented client
token (together with the session id and professional id) matches a stored
session whose status is exactly `expired` and no review for that session
exists yet — a session with status `completed` (the code name for an ended
session) or `active` is rejected with the review-only-after-end error — and
a second submission against the same session is rejected as already
reviewed. -/
theorem C7_review_gate (sessions : List Session) (reviews : List Review)
    (pid sid tok name : String) (rating : Nat) (comment : Option String) :
    (∀ r reviews2,
      submitReview sessions reviews pid sid tok name rating comment =
        Except.ok (r, reviews2) →
      (∃ s, sessions.find? (fun s => s.id = sid ∧ s.sessionToken = tok ∧
          s.professionalId = pid) = some s ∧ s.status = SessionStatus.expired) ∧
      (reviews.any fun rv => rv.sessionId = sid) = false ∧
      reviews2 = reviews ++ [r] ∧ r.sessionId = sid) ∧
    (∀ r reviews2,
      submitReview sessions reviews pid sid tok name rating comment =
        Except.ok (r, reviews2) →
      submitReview sessions reviews2 pid sid tok name rating comment =
        Except.error "You have already reviewed this session") ∧
    (∀ s,
      (name.length < 2 || rating < 1 || rating > 5 || commentTooLong comment) = false →
      sessions.find? (fun s => s.id = sid ∧ s.sessionToken = tok ∧
        s.professionalId = pid) = some s →
      s.status ≠ SessionStatus.expired →
      submitReview sessions reviews pid sid tok name rating comment =
        Except.error "You can only review after the session has ended") := by
  refine ⟨fun r reviews2 h => ?_, fun r reviews2 h => ?_, fun s hv hfind hstat => ?_⟩
  · obtain ⟨hg, s, hfind, hstat, hany, hr, hl⟩ :=
      submitReview_ok_elim sessions reviews pid sid tok name rating comment
        r reviews2 h
    exact ⟨⟨s, hfind, hstat⟩, hany, hl, by rw [hr]⟩
  · obtain ⟨hg, s, hfind, hstat, hany, hr, hl⟩ :=
      submitReview_ok_elim sessions reviews pid sid tok name rating comment
        r reviews2 h
    have hany2 : (reviews2.any fun rv => rv.sessionId = sid) = true := by
      rw [hl, List.any_append]
      have : r.sessionId = sid := by rw [hr]
      simp [this]
    unfold submitReview
    rw [if_neg (show ¬((name.length < 2 || rating < 1 || rating > 5 || commentTooLong comment) = true) by rw [Bool.not_eq_true]; exact hg), hfind]
    dsimp only
    rw [if_neg (by simp [hstat]), if_pos hany2]
  · unfold submitReview
    rw [if_neg (show ¬((name.length < 2 || rating < 1 || rating > 5 || commentTooLong comment) = true) by rw [Bool.not_eq_true]; exact hv), hfind]
    dsimp only
    rw [if_pos hstat]

/-- An expired session available for review (token `tok9`). -/
def c7expired : Session :=
  { sampleActive with id := "S9", sessionToken := "tok9", status := SessionStatus.expired }

/-- A `completed` (ended) session: the review gate rejects it. -/
def c7ended : Session :=
  { sampleActive with id := "S8", sessionToken := "tok8", status := SessionStatus.completed }

/-- The review created by the witness submission against `c7expired`. -/
def c7review : Review :=
  { professionalId := "P1", sessionId := "S9", clientName := "Ada", rating := 5, comment := none }

/-- C7 counterexample: a session whose status is `completed` — the code
status for an ended session — with the correct client token and no existing
review is rejected with the review-only-after-end error, so a review can
NOT be submitted against an ended (as opposed to expired) session. -/
theorem C7_counterexample :
    c7ended.status = SessionStatus.completed ∧
    submitReview [c7ended] [] "P1" "S8" "tok8" "Ada" 5 none =
      Except.error "You can only review after the session has ended" := by
  exact ⟨rfl, rfl⟩

/-- C7 witness: against the expired session `c7expired` the submission
succeeds once and the identical second submission is rejected as already
reviewed; the gate also rejects a still-`active` session. -/
theorem C7_review_gate_witness :
    submitReview [c7expired] [] "P1" "S9" "tok9" "Ada" 5 none =
      Except.ok (c7review, [c7review]) ∧
    submitReview [c7expired] [c7review] "P1" "S9" "tok9" "Ada" 5 none =
      Except.error "You have already reviewed this session" ∧
    submitReview [sampleActive] [] "P1" "S1" "tok1" "Ada" 5 none =
      Except.error "You can only review after the session has ended" := by
  refine ⟨rfl, ?_, ?_⟩
  · exact (C7_review_gate [c7expired] [] "P1" "S9" "tok9" "Ada" 5 none).2.1
      c7review [c7review] rfl
  · exact (C7_review_gate [sampleActive] [] "P1" "S1" "tok1" "Ada" 5 none).2.2
      sampleActive (by decide) (by decide) (by decide)

/-- C8 amended: a successful chat send persists the message first
(`message.save()`), then saves the session metadata, then fans the message
out with `io.to(room)` — whose recipient set is the WHOLE room membership,
including the sending connection itself whenever the sender joined the
session group (only the WebRTC signalling path uses the sender-excluding
`socket.to`). -/
theorem C8_persist_then_broadcast_whole_room (sessions : List Session)
    (room : List String) (sessionId anonId content : String) (now : Nat)
    (s : Session)
    (hc : ((jsTrim content).length = 0 || content.length > 2000) = false)
    (hfind : sessions.find? (fun t => t.id = sessionId) = some s)
    (hst : s.status = SessionStatus.active)
    (hends : (match s.endsAt with | some e => decide (now > e) | none => false) = false) :
    consultationMessageHandler sessions room (SocketData.client sessionId anonId)
        sessionId content now =
      [Effect.persistMessage { sessionId := sessionId, senderId := anonId, senderType := "client", content := jsTrim content, isRead := false },
        Effect.saveSession { s with lastMessageAt := some now, hasUnreadMessages := true },
        Effect.emitToRoom room { sessionId := sessionId, senderId := anonId, senderType := "client", content := jsTrim content, isRead := false }] := by
  unfold consultationMessageHandler
  rw [if_neg (show ¬(((jsTrim content).length = 0 || content.length > 2000) = true) by rw [Bool.not_eq_true]; exact hc), hfind]
  dsimp only
  rw [if_neg (show ¬(s.status ≠ SessionStatus.active ∧ s.status ≠ SessionStatus.pending) by simp [hst]),
    if_neg (show ¬((match s.endsAt with | some e => decide (now > e) | none => false) = true) by rw [Bool.not_eq_true]; exact hends),
    if_pos rfl]
  dsimp only
  rw [if_pos rfl]
  unfold messageAutoActivate
  rw [if_neg (by simp [hst])]

/-- The message persisted and broadcast by the C8 counterexample run. -/
def c8msg : StoredMessage :=
  { sessionId := "S1", senderId := "ANON-1", senderType := "client", content := "hello", isRead := false }

/-- The session state saved by the C8 counterexample run. -/
def c8after : Session :=
  { sampleActive with lastMessageAt := some 1000, hasUnreadMessages := true }

/-- C8 counterexample: a successful send into the room of `sampleActive`,
whose membership is the two connections `sockA` (the sender) and `sockB`:
the message is persisted first, but the broadcast targets the whole room —
`sockA`, the sending connection, is among the recipients, which would be
`[sockB]` alone if the sender were excluded. -/
theorem C8_counterexample :
    consultationMessageHandler [sampleActive] ["sockA", "sockB"]
        (SocketData.client "S1" "ANON-1") "S1" "hello" 1000 =
      [Effect.persistMessage c8msg, Effect.saveSession c8after,
        Effect.emitToRoom ["sockA", "sockB"] c8msg] ∧
    "sockA" ∈ (["sockA", "sockB"] : List String) ∧
    (["sockA", "sockB"] : List String) ≠ ["sockB"] := by
  refine ⟨rfl, by decide, by decide⟩

/-- C8 witness: the amended theorem at the counterexample input — the effect
list shows persistence strictly before the fan-out, and the fan-out
recipients are exactly the room membership. -/
theorem C8_persist_then_broadcast_whole_room_witness :
    consultationMessageHandler [sampleActive] ["sockB", "sockC"]
        (SocketData.client "S1" "ANON-1") "S1" "hi there" 1000 =
      [Effect.persistMessage { sessionId := "S1", senderId := "ANON-1", senderType := "client", content := jsTrim "hi there", isRead := false },
        Effect.saveSession { sampleActive with lastMessageAt := some 1000, hasUnreadMessages := true },
        Effect.emitToRoom ["sockB", "sockC"] { sessionId := "S1", senderId := "ANON-1", senderType := "client", content := jsTrim "hi there", isRead := false }] := by
  exact C8_persist_then_broadcast_whole_room [sampleActive] ["sockB", "sockC"]
    "S1" "ANON-1" "hi there" 1000 sampleActive (by decide) (by decide) rfl
    (by decide)

end SiriusConsult
